import Mathlib

/-!
# Gummi: PDF preview pane (`src/gui/gui-preview.c`) and template picker (`src/template.c`)

A shallow embedding of the preview controller and of the template picker.

Conventions of the embedding

* `gfloat` / `gdouble` values are idealised as rationals (`ℚ`): no rounding, and `x / 0 = 0`
  instead of an infinity.  The static zoom levels keep their order under this idealisation.
* `gint` values are unbounded integers where the program only copies, compares or steps
  them by one; the result of `atoi` is reduced to the 32 bits of an `int`.  The conversion
  of a floating value to `gint` truncates toward zero (`trunc`).
* The widget toolkit, the rendering library, the file system and the GLib main loop are
  external.  Their observable state is kept in `GtkWidgets`, `World.sources` and the oracle
  `Env`; calls whose only effect is outside the preview state are recorded in `World.trace`.
* A computation returns `none` where the C program has no defined behaviour (reading
  `list_sizes` outside its eleven entries, an integer division by zero).
-/

namespace Gummi

/-! ## External objects -/

/-- The two widgets that can be the child of the preview viewport. -/
inductive Widget
  | drawarea
  | errorlabel
deriving DecidableEq, Repr

/-- Calls into the toolkit, the log and the main loop that the properties below speak about. -/
inductive Event
  | slog_error
  | refresh_enter
  | surface_destroy
  | queue_draw
  | container_remove (child : Widget)
  | container_add (child : Widget)
  | show_all
  | source_remove (id : Nat)
  | hadj_set_center
  | hadj_set_ratio
  | vadj_set_ratio
deriving DecidableEq, Repr

/-- A page of a document as seen through `poppler_page_get_size`. -/
structure PopplerPage where
  width : ℚ
  height : ℚ
deriving DecidableEq, Repr

/-- A document opened by the rendering library: its pages in order. -/
structure PopplerDocument where
  pages : List PopplerPage
deriving DecidableEq, Repr

/-- The number of pages, `poppler_document_get_n_pages`. -/
def poppler_document_get_n_pages (d : PopplerDocument) : Int :=
  d.pages.length

/-- The page at `index`, or NULL when the index is not a page of the document. -/
def poppler_document_get_page (d : PopplerDocument) (index : Int) : Option PopplerPage :=
  if 0 ≤ index then d.pages[index.toNat]? else none

/-- An image surface: the size it was created with, the scale set on its context and the
page rendered into it. -/
structure CairoSurface where
  width : Int
  height : Int
  scale : ℚ
  page : Option PopplerPage
deriving DecidableEq, Repr

/-- Who may hold `gummi->motion->compile_mutex`. -/
inductive Actor
  | preview
  | compiler
deriving DecidableEq, Repr

/-- The scroll directions of `GdkScrollDirection`. -/
inductive GdkScrollDirection
  | GDK_SCROLL_UP
  | GDK_SCROLL_DOWN
  | GDK_SCROLL_LEFT
  | GDK_SCROLL_RIGHT
deriving DecidableEq, Repr

/-- The fields of `GdkEventScroll` read by `on_scroll`. -/
structure GdkEventScroll where
  state : Nat
  direction : GdkScrollDirection
deriving DecidableEq, Repr

/-- The modifier bit `GDK_CONTROL_MASK` (`1 << 2`). -/
def GDK_CONTROL_MASK : Nat := 4

/-- What the file system and the rendering library answer during one call. -/
structure Env where
  utils_path_exists : String → Bool
  poppler_document_new_from_file : String → Option PopplerDocument

/-! ## Program state -/

/-- The fields of `GuPreviewGui` that `gui-preview.c` uses, other than the widget pointers
(the declaration itself is in `gui/gui-preview.h`). -/
structure GuPreviewGui where
  uri : Option String
  doc : Option PopplerDocument
  page : Option PopplerPage
  surface : Option CairoSurface
  page_total : Int
  page_current : Int
  page_width : ℚ
  page_height : ℚ
  page_scale : ℚ
  page_zoommode : Int
  update_timer : Nat
  preview_on_idle : Bool
  errormode : Bool
deriving DecidableEq, Repr

/-- The state of the widgets the preview controller points to. -/
structure GtkWidgets where
  page_prev_sensitive : Bool
  page_next_sensitive : Bool
  page_input_text : String
  page_label_text : String
  combo_active : Int
  viewport_child : Option Widget
  scrollw_width : Int
  scrollw_height : Int
  drawarea_request : Int × Int
deriving DecidableEq, Repr

/-- Everything the functions of `gui-preview.c` read or write: the controller, its widgets,
the file-level table `list_sizes`, the compile mutex, the timeout sources installed in the
main loop and the trace of external calls. -/
structure World where
  pc : GuPreviewGui
  gtk : GtkWidgets
  list_sizes : List ℚ
  compile_mutex : Option Actor
  sources : List Nat
  trace : List Event
deriving DecidableEq, Repr

/-- Append one external call to the trace. -/
def World.emit (w : World) (e : Event) : World :=
  { w with trace := w.trace ++ [e] }

/-- The initial contents of `list_sizes` (lines 50-51). -/
def list_sizes_init : List ℚ :=
  [-1, -1, 0.50, 0.70, 0.85, 1.0, 1.25, 1.5, 2.0, 3.0, 4.0]

/-- Read `list_sizes[i]`; `none` outside the array. -/
def list_sizes_at (t : List ℚ) (i : Int) : Option ℚ :=
  if 0 ≤ i then t[i.toNat]? else none

/-- Conversion of a floating value to `gint`: truncation toward zero. -/
def trunc (q : ℚ) : Int :=
  Int.tdiv q.num q.den

/-- The GLib macro `CLAMP (x, low, high)`. -/
def CLAMP (x low high : Int) : Int :=
  if x > high then high else if x < low then low else x

/-- The text `printf` produces for `%d`. -/
def printf_d (n : Int) : String :=
  match n with
  | Int.ofNat m => Nat.repr m
  | Int.negSucc m => "-" ++ Nat.repr (m + 1)

/-! ## `gui-preview.c` -/

/-- The fields `previewgui_init` sets (lines 75-82) on a zeroed `GuPreviewGui`. -/
def previewgui_init : GuPreviewGui :=
  { uri := none, doc := none, page := none, surface := none,
    page_total := 0, page_current := 1,
    page_width := 0, page_height := 0, page_scale := 0,
    page_zoommode := 1, update_timer := 0, preview_on_idle := false, errormode := false }

/-- The world right after `previewgui_init`, for widgets `gtk` built from the UI file. -/
def World.init (gtk : GtkWidgets) : World :=
  { pc := previewgui_init, gtk := gtk, list_sizes := list_sizes_init,
    compile_mutex := none, sources := [], trace := [] }

/-- Lines 280-289: drop the page and the document handle. -/
def previewgui_cleanup_fds (w : World) : World :=
  let w := if w.pc.page.isSome then { w with pc := { w.pc with page := none } } else w
  if w.pc.doc.isSome then { w with pc := { w.pc with doc := none } } else w

/-- Lines 124-139. -/
def previewgui_set_pdffile (env : Env) (w : World) (pdffile : String) : World :=
  let w := previewgui_cleanup_fds w
  let uri := "file://" ++ pdffile
  let doc := env.poppler_document_new_from_file uri
  let w := { w with pc := { w.pc with uri := some uri, doc := doc } }
  match doc with
  | none => w
  | some d =>
    let w := { w with pc := { w.pc with page_total := poppler_document_get_n_pages d,
                                        page_current := 0 } }
    let page := poppler_document_get_page d w.pc.page_current
    let w := { w with pc := { w.pc with page := page } }
    match page with
    | none => w
    | some p => { w with pc := { w.pc with page_width := p.width, page_height := p.height } }

/-- Lines 198-220. -/
def previewgui_set_pagedata (w : World) : World :=
  let w :=
    if w.pc.page_total - 1 > w.pc.page_current then
      { w with gtk := { w.gtk with page_next_sensitive := true } }
    else if w.pc.page_current ≥ w.pc.page_total then
      let w := { w with pc := { w.pc with page_current := w.pc.page_current } }
      let w := { w with gtk := { w.gtk with
                  page_prev_sensitive := decide (w.pc.page_current > 0) } }
      { w with gtk := { w.gtk with
          page_next_sensitive := decide (w.pc.page_current < w.pc.page_total - 1) } }
    else w
  let current := printf_d (w.pc.page_current + 1)
  let total := "of " ++ printf_d w.pc.page_total
  { w with gtk := { w.gtk with page_input_text := current, page_label_text := total } }

/-- Lines 256-263.  The division in the height request is an integer division by `width`. -/
def previewgui_drawarea_resize (w : World) : Option World :=
  match list_sizes_at w.list_sizes w.pc.page_zoommode with
  | none => none
  | some s =>
    let w := { w with pc := { w.pc with page_scale := s } }
    let height := trunc (w.pc.page_height * w.pc.page_scale)
    let width := trunc (w.pc.page_width * w.pc.page_scale)
    let fit : Int := if w.pc.page_zoommode = (1 : Int) then (1 : Int) else 0
    if width = 0 then none
    else
      some { w with gtk := { w.gtk with
        drawarea_request := (width - fit * 20, height - Int.tdiv (fit * 20 * height) width) } }

/-- The label `unlock:` of `previewgui_refresh` (line 195). -/
def g_mutex_unlock (w : World) : World :=
  { w with compile_mutex := none }

/-- Lines 166-167 of `previewgui_refresh`: load the current page and read its size;
`poppler_page_get_size` writes nothing when there is no page. -/
def previewgui_refresh_page (d : PopplerDocument) (w : World) : World :=
  let page := poppler_document_get_page d w.pc.page_current
  let w := { w with pc := { w.pc with page := page } }
  match page with
  | none => w
  | some p => { w with pc := { w.pc with page_width := p.width, page_height := p.height } }

/-- Lines 169-170 of `previewgui_refresh`: the two fit entries of `list_sizes`. -/
def previewgui_refresh_fit (w : World) : World :=
  let w := { w with list_sizes :=
    w.list_sizes.set 0 ((w.gtk.scrollw_height : ℚ) / w.pc.page_height) }
  { w with list_sizes := w.list_sizes.set 1 ((w.gtk.scrollw_width : ℚ) / w.pc.page_width) }

/-- Lines 172-174 of `previewgui_refresh`: destroy the previous surface. -/
def previewgui_refresh_drop_surface (w : World) : World :=
  let w := if w.pc.surface.isSome then w.emit Event.surface_destroy else w
  { w with pc := { w.pc with surface := none } }

/-- Lines 160-192 of `previewgui_refresh`: the part run once the document `d` is open. -/
def previewgui_refresh_render (d : PopplerDocument) (w : World) : Option World :=
  let width := trunc (w.pc.page_width * w.pc.page_scale)
  let height := trunc (w.pc.page_height * w.pc.page_scale)
  let w := { w with pc := { w.pc with page_total := poppler_document_get_n_pages d } }
  let w := previewgui_set_pagedata w
  let w := previewgui_refresh_page d w
  let w := previewgui_refresh_fit w
  let w := previewgui_refresh_drop_surface w
  match previewgui_drawarea_resize w with
  | none => none
  | some w =>
    let surface : CairoSurface :=
      { width := width, height := height, scale := w.pc.page_scale, page := w.pc.page }
    let w := { w with pc := { w.pc with surface := some surface } }
    some (w.emit Event.queue_draw)

/-- Lines 141-196. -/
def previewgui_refresh (env : Env) (w : World) : Option World :=
  let w := w.emit Event.refresh_enter
  match w.compile_mutex with
  | some _ => some w
  | none =>
    let w := { w with compile_mutex := some Actor.preview }
    match w.pc.uri with
    | none => some (g_mutex_unlock w)
    | some uri =>
      if !env.utils_path_exists (String.mk (uri.data.drop 7)) then some (g_mutex_unlock w)
      else
        let w := previewgui_cleanup_fds w
        let doc := env.poppler_document_new_from_file uri
        let w := { w with pc := { w.pc with doc := doc } }
        match doc with
        | none => some (g_mutex_unlock w)
        | some d =>
          match previewgui_refresh_render d w with
          | none => none
          | some w => some (g_mutex_unlock w)

/-- Lines 222-234. -/
def previewgui_goto_page (env : Env) (w : World) (page_number : Int) : Option World :=
  if page_number < 0 ∨ page_number ≥ w.pc.page_total then
    some (w.emit Event.slog_error)
  else
    let w := { w with pc := { w.pc with page_current := page_number } }
    let w := { w with gtk := { w.gtk with page_prev_sensitive := decide (page_number > 0) } }
    let w := { w with gtk := { w.gtk with
                page_next_sensitive := decide (page_number < w.pc.page_total - 1) } }
    previewgui_refresh env w

/-- The toolkit call `gtk_container_remove` on the viewport: the child leaves the viewport
when it is the one held. -/
def gtk_container_remove (w : World) (child : Widget) : World :=
  let w := w.emit (Event.container_remove child)
  if w.gtk.viewport_child = some child then
    { w with gtk := { w.gtk with viewport_child := none } }
  else w

/-- The toolkit call `gtk_container_add` on the viewport, which holds at most one child. -/
def gtk_container_add (w : World) (child : Widget) : World :=
  let w := w.emit (Event.container_add child)
  if w.gtk.viewport_child = none then
    { w with gtk := { w.gtk with viewport_child := some child } }
  else w

/-- Lines 236-244. -/
def previewgui_start_error_mode (w : World) : World :=
  if w.pc.errormode then w
  else
    let w := { w with pc := { w.pc with errormode := true } }
    let w := gtk_container_remove w Widget.drawarea
    let w := gtk_container_add w Widget.errorlabel
    w.emit Event.show_all

/-- Lines 246-254; the reference taken on the error label is not modelled. -/
def previewgui_stop_error_mode (w : World) : World :=
  if !w.pc.errormode then w
  else
    let w := { w with pc := { w.pc with errormode := false } }
    let w := gtk_container_remove w Widget.errorlabel
    gtk_container_add w Widget.drawarea

/-- The main-loop call `g_source_remove`: the source with this id is no longer installed. -/
def g_source_remove (w : World) (id : Nat) : World :=
  let w := w.emit (Event.source_remove id)
  { w with sources := w.sources.filter (fun s => s ≠ id) }

/-- Lines 302-308. -/
def previewgui_stop_preview (w : World) : World :=
  let w := { w with pc := { w.pc with preview_on_idle := false } }
  let w := if w.pc.update_timer ≠ 0 then g_source_remove w w.pc.update_timer else w
  { w with pc := { w.pc with update_timer := 0 } }

/-- The C library predicate `isspace` on the characters of the "C" locale. -/
def isspace (c : Char) : Bool :=
  c.toNat = 32 || (9 ≤ c.toNat && c.toNat ≤ 13)

/-- The C library predicate `isdigit`. -/
def isdigit (c : Char) : Bool :=
  48 ≤ c.toNat && c.toNat ≤ 57

/-- The digit loop of `strtol` in base ten: stops at the first character that is not a
digit. -/
def atoi_digits (acc : Int) : List Char → Int
  | [] => acc
  | c :: cs => if isdigit c then atoi_digits (acc * 10 + ((c.toNat : Int) - 48)) cs else acc

/-- The value `LONG_MAX` of a 64-bit `long`. -/
def LONG_MAX : Int := 9223372036854775807

/-- The value `LONG_MIN` of a 64-bit `long`. -/
def LONG_MIN : Int := -9223372036854775808

/-- The C library function `strtol (s, NULL, 10)` with a 64-bit `long`: leading white space,
an optional sign, then digits; `0` when no digit follows; a value outside the range of
`long` is replaced by `LONG_MAX` or `LONG_MIN`. -/
def strtol (s : String) : Int :=
  let n : Int :=
    match s.data.dropWhile isspace with
    | [] => 0
    | c :: cs =>
      if c.toNat = 45 then - atoi_digits 0 cs
      else if c.toNat = 43 then atoi_digits 0 cs
      else atoi_digits 0 (c :: cs)
  if n > LONG_MAX then LONG_MAX else if n < LONG_MIN then LONG_MIN else n

/-- The conversion of a `long` to a 32-bit `int`: the low 32 bits, read as a signed value. -/
def int_of_long (n : Int) : Int :=
  (n + 2147483648) % 4294967296 - 2147483648

/-- The C library function `atoi` as the GNU C library defines it: `(int) strtol (s, NULL,
10)`. -/
def atoi (s : String) : Int :=
  int_of_long (strtol s)

/-- The toolkit call `gtk_entry_set_text` on the page-number field. -/
def gtk_entry_set_text (w : World) (text : String) : World :=
  { w with gtk := { w.gtk with page_input_text := text } }

/-- Lines 310-324; `entry` is the page-number field. -/
def previewgui_page_input_changed (env : Env) (w : World) : Option World :=
  let newpage := atoi w.gtk.page_input_text
  if newpage = 0 then some w
  else if newpage ≥ 1 ∧ newpage ≤ w.pc.page_total then
    previewgui_goto_page env w (newpage - 1)
  else
    let newpage := CLAMP newpage 1 w.pc.page_total
    let num := printf_d newpage
    let w := gtk_entry_set_text w num
    previewgui_goto_page env w (newpage - 1)

/-- Lines 326-328. -/
def previewgui_next_page (env : Env) (w : World) : Option World :=
  previewgui_goto_page env w (w.pc.page_current + 1)

/-- Lines 330-332. -/
def previewgui_prev_page (env : Env) (w : World) : Option World :=
  previewgui_goto_page env w (w.pc.page_current - 1)

/-- The loop of lines 389-393 from `i` on, with `n` iterations left: the first `i` with
`cur < list_sizes[i]`, and the initial value `0` of `fit_width` when there is none. -/
def on_scroll_fit_width (t : List ℚ) (cur : ℚ) : Nat → Nat → Option Int
  | _, 0 => some 0
  | i, n + 1 =>
    match t[i]? with
    | none => none
    | some v => if cur < v then some (i : Int) else on_scroll_fit_width t cur (i + 1) n

/-- The local variables of `on_scroll` after line 404. -/
structure ScrollLocals where
  index : Int
  prev_scale : ℚ
  fit_width : Int
  new_index : Int
  move_to_center : Bool
deriving DecidableEq, Repr

/-- Lines 386-404 of `on_scroll`; `SIZE_COUNT` is the macro of `gui/gui-preview.h`. -/
def on_scroll_locals (SIZE_COUNT : Nat) (e : GdkEventScroll) (w : World) :
    Option ScrollLocals :=
  let index := w.gtk.combo_active
  match list_sizes_at w.list_sizes index with
  | none => none
  | some prev_scale =>
    match on_scroll_fit_width w.list_sizes prev_scale 2 (SIZE_COUNT - 2) with
    | none => none
    | some fit_width =>
      let up : Int := if e.direction = GdkScrollDirection.GDK_SCROLL_UP then (1 : Int) else 0
      let down : Int :=
        if e.direction = GdkScrollDirection.GDK_SCROLL_DOWN then (1 : Int) else 0
      let new_index : Int := if index < 2 then fit_width else index + up - down
      let move_to_center : Bool :=
        if index < 2 then true else decide (index < fit_width ∧ new_index ≥ fit_width)
      let new_index := CLAMP (new_index - 2) 0 8 + 2
      some { index := index, prev_scale := prev_scale, fit_width := fit_width,
             new_index := new_index, move_to_center := move_to_center }

/-- Lines 409-432 of `on_scroll`: the placement of the scroll adjustments.  The values
written to the adjustments are not modelled, only which horizontal placement is chosen. -/
def on_scroll_adjust (l : ScrollLocals) (w : World) : World :=
  if l.index ≠ l.new_index then
    let w := if l.move_to_center then w.emit Event.hadj_set_center
             else w.emit Event.hadj_set_ratio
    w.emit Event.vadj_set_ratio
  else w

/-- Lines 378-438; the result is the returned `gboolean` and the world. -/
def on_scroll (SIZE_COUNT : Nat) (env : Env) (e : GdkEventScroll) (w : World) :
    Option (Bool × World) :=
  if GDK_CONTROL_MASK &&& e.state ≠ 0 then
    match on_scroll_locals SIZE_COUNT e w with
    | none => none
    | some l =>
      let w := { w with gtk := { w.gtk with combo_active := l.new_index } }
      match list_sizes_at w.list_sizes l.new_index with
      | none => none
      | some s =>
        let w := { w with pc := { w.pc with page_scale := s } }
        let w := { w with pc := { w.pc with page_zoommode := l.new_index } }
        let w := on_scroll_adjust l w
        match previewgui_refresh env w with
        | none => none
        | some w => some (true, w)
  else some (false, w)

/-! ## `template.c` -/

/-- The template picker: the rows of the list store and the selected row, if any. -/
structure GuTemplate where
  list_templates : List String
  selected : Option Nat
deriving DecidableEq, Repr

/-- Lines 64-70.  The C function takes no argument; `t` is the picker state at the call.
A `gchar*` result is `some` text, a NULL result would be `none`. -/
def template_open_selected (_t : GuTemplate) : Option String :=
  some "bla"

/-! ## Sequences of operations -/

/-- The operations a user or the application performs on the preview. -/
inductive Op
  | set_pdffile (env : Env) (pdffile : String)
  | refresh (env : Env)
  | goto_page (env : Env) (page_number : Int)
  | next_page (env : Env)
  | prev_page (env : Env)
  | page_input (env : Env) (text : String)

/-- One operation; `page_input` types `text` into the page-number field and commits it. -/
def Op.apply (w : World) : Op → Option World
  | Op.set_pdffile env pdffile => some (previewgui_set_pdffile env w pdffile)
  | Op.refresh env => previewgui_refresh env w
  | Op.goto_page env n => previewgui_goto_page env w n
  | Op.next_page env => previewgui_next_page env w
  | Op.prev_page env => previewgui_prev_page env w
  | Op.page_input env text =>
    previewgui_page_input_changed env (gtk_entry_set_text w text)

/-- Run a sequence of operations from `w`. -/
def run (w : World) : List Op → Option World
  | [] => some w
  | op :: ops =>
    match op.apply w with
    | none => none
    | some w1 => run w1 ops

/-! ## Sample inputs -/

/-- Widgets as the UI file might build them. -/
def sample_gtk : GtkWidgets :=
  { page_prev_sensitive := true, page_next_sensitive := true, page_input_text := "",
    page_label_text := "", combo_active := 1, viewport_child := some Widget.drawarea,
    scrollw_width := 400, scrollw_height := 600, drawarea_request := (0, 0) }

/-- An environment in which every path exists and every open yields `d`. -/
def sample_env (d : Option PopplerDocument) : Env :=
  { utils_path_exists := fun _ => true, poppler_document_new_from_file := fun _ => d }

/-- A document of `n` pages of size `width` by `height`. -/
def sample_doc (n : Nat) (width height : ℚ) : PopplerDocument :=
  { pages := List.replicate n { width := width, height := height } }

/-- A world in which a five-page document is shown at zoom level `1.0` and the compile
mutex is held by the compiler. -/
def sample_locked : World :=
  { pc := { previewgui_init with
              uri := some "file:///tmp/a.pdf", doc := some (sample_doc 5 200 300),
              page := some { width := 200, height := 300 },
              surface := some { width := 200, height := 300, scale := 1,
                                page := some { width := 200, height := 300 } },
              page_total := 5, page_current := 2, page_width := 200, page_height := 300,
              page_scale := 1, page_zoommode := 5 },
    gtk := { sample_gtk with combo_active := 5 },
    list_sizes := list_sizes_init, compile_mutex := some Actor.compiler,
    sources := [], trace := [] }

/-- A world in which the first page of a ten-page document is shown at zoom level `1.0`,
the compile mutex is free and the page-number field holds the text `50`. -/
def sample_ten : World :=
  { pc := { previewgui_init with
              uri := some "file:///tmp/a.pdf", doc := some (sample_doc 10 200 300),
              page := some { width := 200, height := 300 },
              page_total := 10, page_current := 0, page_width := 200, page_height := 300,
              page_scale := 1, page_zoommode := 5 },
    gtk := { sample_gtk with combo_active := 5, page_input_text := "50" },
    list_sizes := list_sizes_init, compile_mutex := none, sources := [], trace := [] }

/-- The world right after initialisation, with the text `5` typed into the page-number
field. -/
def sample_no_pages : World :=
  gtk_entry_set_text (World.init sample_gtk) "5"

/-- The world `sample_ten` with zoom level `index` of scale `scale` selected. -/
def sample_zoomed (index : Int) (scale : ℚ) : World :=
  { sample_ten with
    pc := { sample_ten.pc with page_zoommode := index, page_scale := scale },
    gtk := { sample_ten.gtk with combo_active := index } }

/-- A scroll event with the control key held. -/
def sample_scroll (direction : GdkScrollDirection) : GdkEventScroll :=
  { state := GDK_CONTROL_MASK, direction := direction }

/-- The world `sample_ten` on the last page of its ten pages, both navigation buttons
sensitive as they were on an inner page. -/
def sample_last_page : World :=
  { sample_ten with pc := { sample_ten.pc with page_current := 9 } }

/-! ## Page navigation -/

/-- C1: for a page number below zero or not below `page_total`, `previewgui_goto_page`
only logs: the current page, the whole controller, the sensitivity of both navigation
buttons and all widgets are as before, and `previewgui_refresh` is not entered. -/
theorem goto_page_out_of_range (env : Env) (w : World) (page_number : Int)
    (h : page_number < 0 ∨ page_number ≥ w.pc.page_total) :
    ∃ w1, previewgui_goto_page env w page_number = some w1 ∧
      w1.pc.page_current = w.pc.page_current ∧
      w1.gtk.page_prev_sensitive = w.gtk.page_prev_sensitive ∧
      w1.gtk.page_next_sensitive = w.gtk.page_next_sensitive ∧
      w1.trace.count Event.refresh_enter = w.trace.count Event.refresh_enter ∧
      w1.pc = w.pc ∧ w1.gtk = w.gtk ∧ w1.list_sizes = w.list_sizes ∧
      w1.trace = w.trace ++ [Event.slog_error] := by
  refine ⟨w.emit Event.slog_error, ?_, ?_⟩
  · unfold previewgui_goto_page
    rw [if_pos h]
  · simp [World.emit, List.count_append]

/-- The guard of C1 at page number 7 right after initialisation, where `page_total = 0`. -/
theorem goto_page_out_of_range_witness :
    ((7 : Int) < 0 ∨ (7 : Int) ≥ (World.init sample_gtk).pc.page_total) ∧
    ∃ w1, previewgui_goto_page (sample_env none) (World.init sample_gtk) 7 = some w1 ∧
      w1.pc.page_current = (World.init sample_gtk).pc.page_current ∧
      w1.gtk.page_prev_sensitive = (World.init sample_gtk).gtk.page_prev_sensitive ∧
      w1.gtk.page_next_sensitive = (World.init sample_gtk).gtk.page_next_sensitive ∧
      w1.trace.count Event.refresh_enter
        = (World.init sample_gtk).trace.count Event.refresh_enter ∧
      w1.pc = (World.init sample_gtk).pc ∧ w1.gtk = (World.init sample_gtk).gtk ∧
      w1.list_sizes = (World.init sample_gtk).list_sizes ∧
      w1.trace = (World.init sample_gtk).trace ++ [Event.slog_error] :=
  ⟨by decide, goto_page_out_of_range (sample_env none) (World.init sample_gtk) 7 (by decide)⟩

/-! ## Refresh under a held lock -/

/-- C4: when the compile mutex is held at the call (by the compiler, or by anyone),
`previewgui_refresh` returns without touching the controller (document, page, page count,
current page, page size, scale, surface), the zoom table or the widgets; no redraw is
queued; and the mutex is still held by the same holder. -/
theorem refresh_lock_held (env : Env) (w : World) (a : Actor)
    (h : w.compile_mutex = some a) :
    ∃ w1, previewgui_refresh env w = some w1 ∧
      w1.pc.doc = w.pc.doc ∧ w1.pc.page = w.pc.page ∧
      w1.pc.page_total = w.pc.page_total ∧ w1.pc.page_current = w.pc.page_current ∧
      w1.pc.page_width = w.pc.page_width ∧ w1.pc.page_height = w.pc.page_height ∧
      w1.pc.page_scale = w.pc.page_scale ∧ w1.list_sizes = w.list_sizes ∧
      w1.pc.surface = w.pc.surface ∧ w1.pc = w.pc ∧ w1.gtk = w.gtk ∧
      w1.sources = w.sources ∧
      w1.trace.count Event.queue_draw = w.trace.count Event.queue_draw ∧
      w1.trace.count Event.surface_destroy = w.trace.count Event.surface_destroy ∧
      w1.compile_mutex = some a := by
  refine ⟨w.emit Event.refresh_enter, ?_, ?_⟩
  · unfold previewgui_refresh
    simp [World.emit, h]
  · simp [World.emit, List.count_append, h]

/-- C4 at a world whose mutex the compiler holds: the hypothesis holds there. -/
theorem refresh_lock_held_witness :
    sample_locked.compile_mutex = some Actor.compiler ∧
    ∃ w1, previewgui_refresh (sample_env (some (sample_doc 2 100 100))) sample_locked
        = some w1 ∧
      w1.pc.doc = sample_locked.pc.doc ∧ w1.pc.page = sample_locked.pc.page ∧
      w1.pc.page_total = sample_locked.pc.page_total ∧
      w1.pc.page_current = sample_locked.pc.page_current ∧
      w1.pc.page_width = sample_locked.pc.page_width ∧
      w1.pc.page_height = sample_locked.pc.page_height ∧
      w1.pc.page_scale = sample_locked.pc.page_scale ∧
      w1.list_sizes = sample_locked.list_sizes ∧
      w1.pc.surface = sample_locked.pc.surface ∧ w1.pc = sample_locked.pc ∧
      w1.gtk = sample_locked.gtk ∧ w1.sources = sample_locked.sources ∧
      w1.trace.count Event.queue_draw = sample_locked.trace.count Event.queue_draw ∧
      w1.trace.count Event.surface_destroy
        = sample_locked.trace.count Event.surface_destroy ∧
      w1.compile_mutex = some Actor.compiler :=
  ⟨rfl, refresh_lock_held (sample_env (some (sample_doc 2 100 100))) sample_locked
    Actor.compiler rfl⟩

/-! ## Opening a document -/

/-- Helper: `previewgui_cleanup_fds` only clears the page and document handles. -/
theorem cleanup_fds_eq (w : World) :
    previewgui_cleanup_fds w = { w with pc := { w.pc with page := none, doc := none } } := by
  obtain ⟨⟨uri, doc, page, surface, pt, pcur, pw, ph, ps, pz, ut, idle, em⟩, gtk, ls, m, src, tr⟩
    := w
  cases doc <;> cases page <;> simp [previewgui_cleanup_fds]

/-- C6: when the rendering library returns no handle for the uri built from `pdffile`,
`previewgui_set_pdffile` returns with a null document handle and with `page_total`,
`page_current`, `page_width` and `page_height` as they were before the call. -/
theorem set_pdffile_open_fails (env : Env) (w : World) (pdffile : String)
    (h : env.poppler_document_new_from_file ("file://" ++ pdffile) = none) :
    (previewgui_set_pdffile env w pdffile).pc.doc = none ∧
    (previewgui_set_pdffile env w pdffile).pc.page_total = w.pc.page_total ∧
    (previewgui_set_pdffile env w pdffile).pc.page_current = w.pc.page_current ∧
    (previewgui_set_pdffile env w pdffile).pc.page_width = w.pc.page_width ∧
    (previewgui_set_pdffile env w pdffile).pc.page_height = w.pc.page_height := by
  simp [previewgui_set_pdffile, h, cleanup_fds_eq]

/-- C6 at a world showing a five-page document, with an open that fails. -/
theorem set_pdffile_open_fails_witness :
    (sample_env none).poppler_document_new_from_file ("file://" ++ "/missing/file.pdf")
      = none ∧
    (previewgui_set_pdffile (sample_env none) sample_locked "/missing/file.pdf").pc.doc
      = none ∧
    (previewgui_set_pdffile (sample_env none) sample_locked "/missing/file.pdf").pc.page_total
      = sample_locked.pc.page_total ∧
    (previewgui_set_pdffile (sample_env none) sample_locked "/missing/file.pdf").pc.page_current
      = sample_locked.pc.page_current ∧
    (previewgui_set_pdffile (sample_env none) sample_locked "/missing/file.pdf").pc.page_width
      = sample_locked.pc.page_width ∧
    (previewgui_set_pdffile (sample_env none) sample_locked "/missing/file.pdf").pc.page_height
      = sample_locked.pc.page_height :=
  ⟨rfl, set_pdffile_open_fails (sample_env none) sample_locked "/missing/file.pdf" rfl⟩

/-! ## Error mode and automatic preview -/

/-- Helper: after `previewgui_start_error_mode` the controller is in error mode. -/
theorem start_error_mode_errormode (w : World) :
    (previewgui_start_error_mode w).pc.errormode = true := by
  unfold previewgui_start_error_mode
  by_cases h : w.pc.errormode = true
  · simp [h]
  · simp only [h, Bool.false_eq_true, if_false]
    simp only [gtk_container_add, gtk_container_remove, World.emit]
    split <;> split <;> rfl

/-- Helper: after `previewgui_stop_error_mode` the controller is not in error mode. -/
theorem stop_error_mode_errormode (w : World) :
    (previewgui_stop_error_mode w).pc.errormode = false := by
  unfold previewgui_stop_error_mode
  cases h : w.pc.errormode
  · simp [h]
  · simp only [Bool.not_true, Bool.false_eq_true, if_false]
    simp only [gtk_container_add, gtk_container_remove, World.emit]
    split <;> split <;> rfl

/-- C7: `previewgui_start_error_mode`, `previewgui_stop_error_mode` and
`previewgui_stop_preview` are idempotent on the whole world: the error flag, the child of
the viewport, the idle flag, the timer id, the installed sources and the trace of toolkit
and main-loop calls (container swaps, source removals) after two calls equal those after
one. -/
theorem error_mode_and_stop_preview_idempotent (w : World) :
    previewgui_start_error_mode (previewgui_start_error_mode w)
      = previewgui_start_error_mode w ∧
    previewgui_stop_error_mode (previewgui_stop_error_mode w)
      = previewgui_stop_error_mode w ∧
    previewgui_stop_preview (previewgui_stop_preview w) = previewgui_stop_preview w := by
  refine ⟨?_, ?_, ?_⟩
  · have h := start_error_mode_errormode w
    generalize previewgui_start_error_mode w = w1 at h
    simp [previewgui_start_error_mode, h]
  · have h := stop_error_mode_errormode w
    generalize previewgui_stop_error_mode w = w1 at h
    simp [previewgui_stop_error_mode, h]
  · have h1 : (previewgui_stop_preview w).pc.update_timer = 0 := by
      simp [previewgui_stop_preview]
    have h2 : (previewgui_stop_preview w).pc.preview_on_idle = false := by
      unfold previewgui_stop_preview
      simp only [g_source_remove, World.emit]
      split <;> rfl
    generalize previewgui_stop_preview w = w1 at h1 h2
    obtain ⟨⟨uri, doc, page, surface, pt, pcur, pw, ph, ps, pz, ut, idle, em⟩,
      gtk, ls, m, src, tr⟩ := w1
    simp only at h1 h2
    subst h1 h2
    simp [previewgui_stop_preview]

/-! ## Template picker -/

/-- C8 (the code at the failing input): with one template in the list and nothing selected,
`template_open_selected` still returns the constant text `"bla"`, not a failure. -/
theorem template_open_selected_without_selection :
    template_open_selected { list_templates := ["untitled"], selected := none }
      = some "bla" ∧
    template_open_selected { list_templates := ["untitled"], selected := none } ≠ none :=
  ⟨rfl, by simp [template_open_selected]⟩

/-! ## Frame lemmas for `previewgui_refresh` -/

/-- Helper: `previewgui_set_pagedata` writes widgets only, and the page-number field shows
the current page counted from one. -/
theorem set_pagedata_frame (w : World) :
    (previewgui_set_pagedata w).pc = w.pc ∧
    (previewgui_set_pagedata w).list_sizes = w.list_sizes ∧
    (previewgui_set_pagedata w).compile_mutex = w.compile_mutex ∧
    (previewgui_set_pagedata w).gtk.page_input_text = printf_d (w.pc.page_current + 1) := by
  unfold previewgui_set_pagedata
  simp only
  split
  · simp
  · split <;> simp

/-- Helper: loading the page changes the page handle and the page size only. -/
theorem refresh_page_frame (d : PopplerDocument) (w : World) :
    (previewgui_refresh_page d w).pc.page_current = w.pc.page_current ∧
    (previewgui_refresh_page d w).pc.page_zoommode = w.pc.page_zoommode ∧
    (previewgui_refresh_page d w).list_sizes = w.list_sizes ∧
    (previewgui_refresh_page d w).compile_mutex = w.compile_mutex ∧
    (previewgui_refresh_page d w).gtk = w.gtk := by
  unfold previewgui_refresh_page
  simp only
  split <;> simp

/-- Helper: the fit entries are the only entries of `list_sizes` that a refresh writes. -/
theorem refresh_fit_frame (w : World) :
    (previewgui_refresh_fit w).pc = w.pc ∧
    (previewgui_refresh_fit w).gtk = w.gtk ∧
    (previewgui_refresh_fit w).compile_mutex = w.compile_mutex ∧
    (previewgui_refresh_fit w).list_sizes.length = w.list_sizes.length ∧
    ∀ i : Nat, 2 ≤ i → (previewgui_refresh_fit w).list_sizes[i]? = w.list_sizes[i]? := by
  unfold previewgui_refresh_fit
  refine ⟨rfl, rfl, rfl, by simp, ?_⟩
  intro i hi
  simp only [List.getElem?_set]
  have h0 : ¬ (0 = i) := by omega
  have h1 : ¬ (1 = i) := by omega
  simp [h0, h1]

/-- Helper: dropping the surface leaves the page, the zoom and the table alone. -/
theorem refresh_drop_surface_frame (w : World) :
    (previewgui_refresh_drop_surface w).pc.page_current = w.pc.page_current ∧
    (previewgui_refresh_drop_surface w).pc.page_zoommode = w.pc.page_zoommode ∧
    (previewgui_refresh_drop_surface w).list_sizes = w.list_sizes ∧
    (previewgui_refresh_drop_surface w).compile_mutex = w.compile_mutex ∧
    (previewgui_refresh_drop_surface w).gtk = w.gtk := by
  unfold previewgui_refresh_drop_surface
  simp only [World.emit]
  split <;> simp

/-- Helper: what `previewgui_drawarea_resize` changes when it is defined. -/
theorem drawarea_resize_frame (w w1 : World) (h : previewgui_drawarea_resize w = some w1) :
    list_sizes_at w.list_sizes w.pc.page_zoommode = some w1.pc.page_scale ∧
    w1.pc.page_current = w.pc.page_current ∧
    w1.pc.page_zoommode = w.pc.page_zoommode ∧
    w1.list_sizes = w.list_sizes ∧ w1.compile_mutex = w.compile_mutex ∧
    w1.gtk.page_input_text = w.gtk.page_input_text := by
  unfold previewgui_drawarea_resize at h
  split at h
  · cases h
  · rename_i s hs
    simp only at h
    split at h
    · cases h
    · cases h
      simp [hs]

/-- Helper: the rendering part of a refresh keeps the current page and the zoom mode, takes
the scale from the table, leaves the static table entries alone and shows the current page
in the page-number field. -/
theorem refresh_render_frame (d : PopplerDocument) (w w1 : World)
    (h : previewgui_refresh_render d w = some w1) :
    w1.pc.page_current = w.pc.page_current ∧
    w1.pc.page_zoommode = w.pc.page_zoommode ∧
    list_sizes_at w1.list_sizes w1.pc.page_zoommode = some w1.pc.page_scale ∧
    w1.list_sizes.length = w.list_sizes.length ∧
    (∀ i : Nat, 2 ≤ i → w1.list_sizes[i]? = w.list_sizes[i]?) ∧
    w1.gtk.page_input_text = printf_d (w.pc.page_current + 1) := by
  unfold previewgui_refresh_render at h
  simp only at h
  split at h
  · cases h
  · rename_i w2 hw2
    cases h
    obtain ⟨r1, r2, r3, r4, r5, r6⟩ := drawarea_resize_frame _ _ hw2
    obtain ⟨s1, s2, s3, s4, s5⟩ := refresh_drop_surface_frame
      (previewgui_refresh_fit (previewgui_refresh_page d (previewgui_set_pagedata
        { w with pc := { w.pc with page_total := poppler_document_get_n_pages d } })))
    obtain ⟨f1, f2, f3, f4, f5⟩ := refresh_fit_frame
      (previewgui_refresh_page d (previewgui_set_pagedata
        { w with pc := { w.pc with page_total := poppler_document_get_n_pages d } }))
    obtain ⟨p1, p2, p3, p4, p5⟩ := refresh_page_frame d (previewgui_set_pagedata
        { w with pc := { w.pc with page_total := poppler_document_get_n_pages d } })
    obtain ⟨d1, d2, d3, d4⟩ := set_pagedata_frame
        { w with pc := { w.pc with page_total := poppler_document_get_n_pages d } }
    simp only [World.emit]
    refine ⟨?_, ?_, ?_, ?_, ?_, ?_⟩
    · rw [r2, s1, f1, p1, d1]
    · rw [r3, s2, f1, p2, d1]
    · rw [r4, r3, ← r1]
    · rw [r4, s3, f4, p3, d2]
    · intro i hi
      rw [r4, s3, f5 i hi, p3, d2]
    · rw [r6, s5, f2, p5, d4]

/-- Helper: a refresh keeps the current page, the zoom mode and the static table entries;
the page-number field afterwards is the one before or shows the current page; and a scale
that was the table entry of the zoom mode still is. -/
theorem refresh_frame (env : Env) (w w1 : World) (h : previewgui_refresh env w = some w1) :
    w1.pc.page_current = w.pc.page_current ∧
    w1.pc.page_zoommode = w.pc.page_zoommode ∧
    w1.list_sizes.length = w.list_sizes.length ∧
    (∀ i : Nat, 2 ≤ i → w1.list_sizes[i]? = w.list_sizes[i]?) ∧
    (w1.gtk.page_input_text = w.gtk.page_input_text ∨
      w1.gtk.page_input_text = printf_d (w.pc.page_current + 1)) ∧
    (list_sizes_at w.list_sizes w.pc.page_zoommode = some w.pc.page_scale →
      list_sizes_at w1.list_sizes w1.pc.page_zoommode = some w1.pc.page_scale) := by
  unfold previewgui_refresh at h
  simp only [World.emit] at h
  split at h
  · cases h; simp
  · split at h
    · cases h; simp [g_mutex_unlock]
    · split at h
      · cases h; simp [g_mutex_unlock]
      · simp only [cleanup_fds_eq] at h
        split at h
        · cases h; simp [g_mutex_unlock]
        · split at h
          · cases h
          · rename_i w2 hw2
            cases h
            obtain ⟨r1, r2, r3, r4, r5, r6⟩ := refresh_render_frame _ _ _ hw2
            simp only [g_mutex_unlock]
            exact ⟨r1, r2, r4, r5, Or.inr r6, fun _ => r3⟩
/-! ## The page-number field -/

/-- Helper: a page number inside `[0, page_total)` is made current and shown by a refresh. -/
theorem goto_page_in_range (env : Env) (w : World) (page_number : Int)
    (h0 : 0 ≤ page_number) (h1 : page_number < w.pc.page_total) :
    ∀ w1, previewgui_goto_page env w page_number = some w1 →
      w1.pc.page_current = page_number ∧
      (w1.gtk.page_input_text = w.gtk.page_input_text ∨
        w1.gtk.page_input_text = printf_d (page_number + 1)) := by
  intro w1 hw1
  unfold previewgui_goto_page at hw1
  have hn : ¬ (page_number < 0 ∨ page_number ≥ w.pc.page_total) := by omega
  rw [if_neg hn] at hw1
  obtain ⟨r1, -, -, -, r5, -⟩ := refresh_frame _ _ _ hw1
  exact ⟨r1, r5⟩

/-- Helper: the digit loop yields `0` when no digit comes first. -/
theorem atoi_digits_no_digit (cs : List Char)
    (h : ∀ d, cs.head? = some d → isdigit d = false) : atoi_digits 0 cs = 0 := by
  cases cs with
  | nil => rfl
  | cons d ds =>
    unfold atoi_digits
    rw [h d rfl]
    rfl

/-- Helper: `atoi` is `0` on a text without a leading number: after the white space comes
nothing or a character that is neither a digit nor a sign, or a sign that no digit
follows. -/
theorem atoi_without_leading_number (s : String)
    (h : (∀ d, (s.data.dropWhile isspace).head? = some d →
            isdigit d = false ∧ d.toNat ≠ 45 ∧ d.toNat ≠ 43) ∨
         (∃ c cs, s.data.dropWhile isspace = c :: cs ∧ (c.toNat = 45 ∨ c.toNat = 43) ∧
            ∀ d, cs.head? = some d → isdigit d = false)) : atoi s = 0 := by
  have hn : (match s.data.dropWhile isspace with
      | [] => (0 : Int)
      | c :: cs =>
        if c.toNat = 45 then - atoi_digits 0 cs
        else if c.toNat = 43 then atoi_digits 0 cs
        else atoi_digits 0 (c :: cs)) = 0 := by
    rcases h with h | ⟨c, cs, hs, hc, hd⟩
    · cases hr : s.data.dropWhile isspace with
      | nil => rfl
      | cons c cs =>
        rw [hr] at h
        obtain ⟨h1, h2, h3⟩ := h c rfl
        simp only [h2, h3, if_false]
        exact atoi_digits_no_digit (c :: cs) (by intro d hd; cases hd; exact h1)
    · rw [hs]
      simp only
      rw [atoi_digits_no_digit cs hd]
      rcases hc with hc | hc
      · rw [if_pos hc]; rfl
      · rw [if_pos hc]
        split <;> rfl
  unfold atoi strtol
  simp only [hn]
  decide

/-- Helper: the result of `atoi` is a 32-bit `int`. -/
theorem atoi_range (s : String) : -2147483648 ≤ atoi s ∧ atoi s ≤ 2147483647 := by
  unfold atoi int_of_long
  omega

/-- Helper: `atoi` on texts whose number does not fit an `int`, and on a number followed by
other characters. -/
theorem atoi_examples :
    atoi "4294967296" = 0 ∧ atoi "4294967297" = 1 ∧ atoi "2147483648" = -2147483648 ∧
    atoi "99999999999999999999" = -1 ∧ atoi "3x" = 3 ∧ atoi " -7" = -7 ∧ atoi "x3" = 0 := by
  decide

/-- C2 (amended): the commit handler of the page-number field, with `v = atoi text`, the
32-bit value of the leading number of the text.
If `v = 0`, in particular for a text without a leading number (after the white space comes
nothing, or a character that is neither a digit nor a sign, or a sign that no digit
follows), nothing changes.  If `1 ≤ v ≤ page_total`, the handler is `previewgui_goto_page` at `v - 1`, and page `v - 1`
is current afterwards.  Otherwise, when `page_total ≥ 1`, the value `c = CLAMP (v, 1,
page_total)` lies in `[1, page_total]`, the field is rewritten with `c`, the handler is
`previewgui_goto_page` at `c - 1`, and afterwards page `c - 1` is current and the field
shows `c`.  When `page_total ≤ 0` and `v ≠ 0`, the field is rewritten with
`CLAMP (v, 1, page_total)` and the range guard of `previewgui_goto_page` refuses the page:
the handler returns after the log call, the controller unchanged. -/
theorem page_input_changed_cases (env : Env) (w : World) :
    (atoi w.gtk.page_input_text = 0 → previewgui_page_input_changed env w = some w) ∧
    (((∀ d, (w.gtk.page_input_text.data.dropWhile isspace).head? = some d →
          isdigit d = false ∧ d.toNat ≠ 45 ∧ d.toNat ≠ 43) ∨
       (∃ c cs, w.gtk.page_input_text.data.dropWhile isspace = c :: cs ∧
          (c.toNat = 45 ∨ c.toNat = 43) ∧ ∀ d, cs.head? = some d → isdigit d = false)) →
      previewgui_page_input_changed env w = some w) ∧
    (1 ≤ atoi w.gtk.page_input_text → atoi w.gtk.page_input_text ≤ w.pc.page_total →
      previewgui_page_input_changed env w
        = previewgui_goto_page env w (atoi w.gtk.page_input_text - 1) ∧
      ∀ w1, previewgui_page_input_changed env w = some w1 →
        w1.pc.page_current = atoi w.gtk.page_input_text - 1) ∧
    (atoi w.gtk.page_input_text ≠ 0 →
      ¬ (1 ≤ atoi w.gtk.page_input_text ∧ atoi w.gtk.page_input_text ≤ w.pc.page_total) →
      1 ≤ w.pc.page_total →
      1 ≤ CLAMP (atoi w.gtk.page_input_text) 1 w.pc.page_total ∧
      CLAMP (atoi w.gtk.page_input_text) 1 w.pc.page_total ≤ w.pc.page_total ∧
      previewgui_page_input_changed env w
        = previewgui_goto_page env
            (gtk_entry_set_text w
              (printf_d (CLAMP (atoi w.gtk.page_input_text) 1 w.pc.page_total)))
            (CLAMP (atoi w.gtk.page_input_text) 1 w.pc.page_total - 1) ∧
      ∀ w1, previewgui_page_input_changed env w = some w1 →
        w1.pc.page_current = CLAMP (atoi w.gtk.page_input_text) 1 w.pc.page_total - 1 ∧
        w1.gtk.page_input_text
          = printf_d (CLAMP (atoi w.gtk.page_input_text) 1 w.pc.page_total)) ∧
    (atoi w.gtk.page_input_text ≠ 0 → w.pc.page_total ≤ 0 →
      previewgui_page_input_changed env w
        = some ((gtk_entry_set_text w
            (printf_d (CLAMP (atoi w.gtk.page_input_text) 1 w.pc.page_total))).emit
            Event.slog_error)) := by
  have hzero : atoi w.gtk.page_input_text = 0 →
      previewgui_page_input_changed env w = some w := by
    intro h
    simp [previewgui_page_input_changed, h]
  refine ⟨hzero, ?_, ?_, ?_, ?_⟩
  · intro h
    exact hzero (atoi_without_leading_number _ h)
  · intro h1 h2
    have e : previewgui_page_input_changed env w
        = previewgui_goto_page env w (atoi w.gtk.page_input_text - 1) := by
      unfold previewgui_page_input_changed
      have hne : ¬ atoi w.gtk.page_input_text = 0 := by omega
      simp only [hne, if_false]
      rw [if_pos ⟨h1, h2⟩]
    refine ⟨e, ?_⟩
    intro w1 hw1
    rw [e] at hw1
    exact (goto_page_in_range env w _ (by omega) (by omega) w1 hw1).1
  · intro hne hout htot
    have hc1 : 1 ≤ CLAMP (atoi w.gtk.page_input_text) 1 w.pc.page_total := by
      unfold CLAMP
      split
      · exact htot
      · split <;> omega
    have hc2 : CLAMP (atoi w.gtk.page_input_text) 1 w.pc.page_total ≤ w.pc.page_total := by
      unfold CLAMP
      split
      · exact le_refl _
      · split <;> omega
    have e : previewgui_page_input_changed env w
        = previewgui_goto_page env
            (gtk_entry_set_text w
              (printf_d (CLAMP (atoi w.gtk.page_input_text) 1 w.pc.page_total)))
            (CLAMP (atoi w.gtk.page_input_text) 1 w.pc.page_total - 1) := by
      unfold previewgui_page_input_changed
      simp only [hne, if_false]
      rw [if_neg hout]
    refine ⟨hc1, hc2, e, ?_⟩
    intro w1 hw1
    rw [e] at hw1
    obtain ⟨g1, g2⟩ := goto_page_in_range env _ _ (by omega)
      (by simp only [gtk_entry_set_text]; omega) w1 hw1
    refine ⟨g1, ?_⟩
    rcases g2 with g2 | g2
    · exact g2
    · rw [g2]
      congr 1
      omega
  · intro hne htot
    have hout : ¬ (atoi w.gtk.page_input_text ≥ 1 ∧
        atoi w.gtk.page_input_text ≤ w.pc.page_total) := by omega
    have hguard : CLAMP (atoi w.gtk.page_input_text) 1 w.pc.page_total - 1 < 0 ∨
        CLAMP (atoi w.gtk.page_input_text) 1 w.pc.page_total - 1
          ≥ (gtk_entry_set_text w
              (printf_d (CLAMP (atoi w.gtk.page_input_text) 1 w.pc.page_total))).pc.page_total
        := by
      simp only [gtk_entry_set_text]
      unfold CLAMP
      split
      · omega
      · split <;> omega
    unfold previewgui_page_input_changed
    simp only [hne, if_false]
    rw [if_neg hout]
    unfold previewgui_goto_page
    rw [if_pos hguard]

/-- C2 at the scenario of the specification: the field holds `50` and there are ten pages;
the handler returns, page index 9 is current and the field shows `10`. -/
theorem page_input_changed_cases_witness :
    atoi sample_ten.gtk.page_input_text = 50 ∧ sample_ten.pc.page_total = 10 ∧
    (previewgui_page_input_changed (sample_env (some (sample_doc 10 200 300)))
      sample_ten).isSome = true ∧
    ∀ w1, previewgui_page_input_changed (sample_env (some (sample_doc 10 200 300)))
      sample_ten = some w1 → w1.pc.page_current = 9 ∧ w1.gtk.page_input_text = "10" := by
  refine ⟨by decide, by decide, by decide!, ?_⟩
  intro w1 hw1
  have hc : CLAMP (atoi sample_ten.gtk.page_input_text) 1 sample_ten.pc.page_total = 10 := by
    decide
  have h := ((page_input_changed_cases (sample_env (some (sample_doc 10 200 300)))
    sample_ten).2.2.2.1 (by decide) (by decide) (by decide)).2.2.2 w1 hw1
  rw [hc] at h
  exact ⟨h.1, h.2.trans (by decide)⟩

/-- C2 (counterexample): with no document loaded (`page_total = 0`) and the text `5` in
the field, the value is not `0` and not in `[1, page_total]`, yet the rewritten field shows
`0`, which is outside `[1, page_total]`, and no navigation takes place: the current page
index is the one before the call, not `0 - 1`, and no refresh is entered.  And with ten
pages the text `3x`, which is not a number, is not ignored: the handler navigates to page
index 2. -/
theorem page_input_changed_without_pages :
    (atoi sample_no_pages.gtk.page_input_text = 5 ∧ sample_no_pages.pc.page_total = 0 ∧
     CLAMP 5 1 0 = 0 ∧
     ∃ w1, previewgui_page_input_changed (sample_env none) sample_no_pages = some w1 ∧
       w1.gtk.page_input_text = "0" ∧
       w1.pc.page_current = sample_no_pages.pc.page_current ∧
       w1.pc.page_current ≠ 0 - 1 ∧
       w1.trace.count Event.refresh_enter = 0) ∧
    ((gtk_entry_set_text sample_ten "3x").pc.page_current = 0 ∧
     ∃ w1, previewgui_page_input_changed (sample_env (some (sample_doc 10 200 300)))
         (gtk_entry_set_text sample_ten "3x") = some w1 ∧
       w1.pc.page_current = 2 ∧ w1.trace.count Event.refresh_enter = 1) := by
  decide!

/-! ## The page invariant and the surface size -/

/-- C3 (the code at the failing input): open a five-page document, go to its last page,
then refresh after the file was regenerated with two pages.  Every step returns, and the
final state has `page_total = 2` and `page_current = 4`: the invariant
`page_total > 0 → page_current < page_total` does not hold. -/
theorem refresh_with_fewer_pages_breaks_page_invariant :
    ∃ w1, run (World.init sample_gtk)
        [Op.set_pdffile (sample_env (some (sample_doc 5 200 300))) "/tmp/a.pdf",
         Op.goto_page (sample_env (some (sample_doc 5 200 300))) 4,
         Op.refresh (sample_env (some (sample_doc 2 200 300)))] = some w1 ∧
      w1.pc.page_total = 2 ∧ w1.pc.page_current = 4 ∧
      ¬ (w1.pc.page_total > 0 → w1.pc.page_current < w1.pc.page_total) := by
  decide!

/-- C9 (the code at the failing input): a page of 200 by 300 is shown at scale 1 and the
regenerated document has pages of 100 by 100.  The refresh takes the lock, re-opens the
document and returns with `page_width = page_height = 100` and `page_scale = 1`, but the
new surface is 200 by 300: it has the size of the previous page. -/
theorem refresh_surface_has_previous_page_size :
    ∃ w1, previewgui_refresh (sample_env (some (sample_doc 10 100 100))) sample_ten
        = some w1 ∧
      w1.pc.page_width = 100 ∧ w1.pc.page_height = 100 ∧ w1.pc.page_scale = 1 ∧
      trunc (w1.pc.page_width * w1.pc.page_scale) = 100 ∧
      trunc (w1.pc.page_height * w1.pc.page_scale) = 100 ∧
      ∃ s, w1.pc.surface = some s ∧ s.width = 200 ∧ s.height = 300 := by
  decide!

/-! ## Zooming with the scroll wheel -/

/-- Helper: the breakpoint scan from `i` on reads only the entries from `i` on. -/
theorem fit_width_congr (t t2 : List ℚ) (cur : ℚ) (n : Nat) :
    ∀ i : Nat, (∀ j : Nat, i ≤ j → t[j]? = t2[j]?) →
      on_scroll_fit_width t cur i n = on_scroll_fit_width t2 cur i n := by
  induction n with
  | zero => intro i _; rfl
  | succ n ih =>
    intro i h
    unfold on_scroll_fit_width
    rw [h i (le_refl i), ih (i + 1) (fun j hj => h j (by omega))]

/-- Helper: the breakpoint scan is defined as long as it stays inside the table. -/
theorem fit_width_defined (t : List ℚ) (cur : ℚ) (n : Nat) :
    ∀ i : Nat, i + n ≤ t.length → ∃ r, on_scroll_fit_width t cur i n = some r := by
  induction n with
  | zero => intro i _; exact ⟨0, rfl⟩
  | succ n ih =>
    intro i h
    unfold on_scroll_fit_width
    have hi : i < t.length := by omega
    rw [List.getElem?_eq_getElem hi]
    simp only
    split
    · exact ⟨_, rfl⟩
    · exact ih (i + 1) (by omega)

/-- Helper: in the table of the source, the breakpoint of the static level `k` is the next
level as long as the scan reaches it, and `0` otherwise. -/
theorem fit_width_static :
    ∀ k : Fin 11, ∀ S : Fin 12, 2 ≤ k.val →
      on_scroll_fit_width list_sizes_init (list_sizes_init.getD k.val 0) 2 (S.val - 2)
        = some (if k.val + 1 < S.val then ((k.val + 1 : Nat) : Int) else 0) := by
  decide!

/-- Helper: `CLAMP (x - 2, 0, 8) + 2` lies in `2..10`. -/
theorem clamp_zoom_range (x : Int) : 2 ≤ CLAMP (x - 2) 0 8 + 2 ∧ CLAMP (x - 2) 0 8 + 2 ≤ 10 := by
  unfold CLAMP
  split
  · omega
  · split <;> omega

/-- Helper: an index in `0..10` reads an entry of a table of eleven entries. -/
theorem list_sizes_at_defined (t : List ℚ) (i : Int) (hlen : t.length = 11)
    (h0 : 0 ≤ i) (h1 : i ≤ 10) : ∃ s, list_sizes_at t i = some s := by
  unfold list_sizes_at
  rw [if_pos h0]
  have hi : i.toNat < t.length := by omega
  exact ⟨t[i.toNat], List.getElem?_eq_getElem hi⟩

/-- Helper: the adjustment step of `on_scroll` writes the trace only. -/
theorem on_scroll_adjust_frame (l : ScrollLocals) (w : World) :
    (on_scroll_adjust l w).pc = w.pc ∧ (on_scroll_adjust l w).list_sizes = w.list_sizes ∧
    (on_scroll_adjust l w).gtk = w.gtk := by
  unfold on_scroll_adjust
  simp only [World.emit]
  split
  · split <;> simp
  · simp

/-- Helper: `on_scroll` with the modifier held selects the index computed by its first part
and the table entry at this index, then refreshes; the refresh keeps both. -/
theorem on_scroll_of_locals (SIZE_COUNT : Nat) (env : Env) (e : GdkEventScroll) (w : World)
    (l : ScrollLocals) (s : ℚ) (hctl : GDK_CONTROL_MASK &&& e.state ≠ 0)
    (hl : on_scroll_locals SIZE_COUNT e w = some l)
    (hs : list_sizes_at w.list_sizes l.new_index = some s) (h2 : 2 ≤ l.new_index) :
    (∃ w2, w2.pc.page_zoommode = l.new_index ∧ w2.pc.page_scale = s ∧
      w2.gtk.combo_active = l.new_index ∧ w2.list_sizes = w.list_sizes ∧
      on_scroll SIZE_COUNT env e w
        = (previewgui_refresh env w2).map (fun w3 => (true, w3))) ∧
    ∀ r, on_scroll SIZE_COUNT env e w = some r →
      r.1 = true ∧ r.2.pc.page_zoommode = l.new_index ∧ r.2.pc.page_scale = s ∧
      list_sizes_at r.2.list_sizes r.2.pc.page_zoommode = some r.2.pc.page_scale := by
  obtain ⟨a1, a2, a3⟩ := on_scroll_adjust_frame l
    { w with gtk := { w.gtk with combo_active := l.new_index },
             pc := { w.pc with page_scale := s, page_zoommode := l.new_index } }
  have e1 : on_scroll SIZE_COUNT env e w
      = (previewgui_refresh env (on_scroll_adjust l
          { w with gtk := { w.gtk with combo_active := l.new_index },
                   pc := { w.pc with page_scale := s, page_zoommode := l.new_index } })).map
        (fun w3 => (true, w3)) := by
    unfold on_scroll
    rw [if_pos hctl]
    simp only [hl, hs]
    cases previewgui_refresh env (on_scroll_adjust l
          { w with gtk := { w.gtk with combo_active := l.new_index },
                   pc := { w.pc with page_scale := s, page_zoommode := l.new_index } }) <;> rfl
  refine ⟨⟨_, ?_, ?_, ?_, ?_, e1⟩, ?_⟩
  · rw [a1]
  · rw [a1]
  · rw [a3]
  · rw [a2]
  · intro r hr
    rw [e1] at hr
    cases hw3 : previewgui_refresh env (on_scroll_adjust l
          { w with gtk := { w.gtk with combo_active := l.new_index },
                   pc := { w.pc with page_scale := s, page_zoommode := l.new_index } }) with
    | none => rw [hw3] at hr; cases hr
    | some w3 =>
      rw [hw3] at hr
      cases hr
      obtain ⟨-, f2, -, f4, -, f6⟩ := refresh_frame _ _ _ hw3
      rw [a1, a2] at f6
      rw [a1] at f2
      rw [a2] at f4
      simp only at f2 f6
      have hcons := f6 hs
      refine ⟨rfl, f2, ?_, hcons⟩
      rw [f2] at hcons
      unfold list_sizes_at at hcons hs
      have h0 : 0 ≤ l.new_index := by omega
      rw [if_pos h0] at hcons hs
      rw [f4 l.new_index.toNat (by omega), hs] at hcons
      exact (Option.some.inj hcons).symm

/-- Helper: from index 2 on, a table whose static part is the one of the source reads like
the initial table. -/
theorem static_table_read (t : List ℚ) (d0 d1 : ℚ)
    (ht : t = d0 :: d1 :: list_sizes_init.drop 2) :
    ∀ j : Nat, 2 ≤ j → t[j]? = list_sizes_init[j]? := by
  intro j hj
  obtain ⟨i, rfl⟩ : ∃ i, j = i + 2 := ⟨j - 2, by omega⟩
  rw [ht]
  simp [list_sizes_init]

/-- C5 (amended): a scroll with the modifier held from a static zoom index (`2..10`), the
static part of the table being the one of the source and `SIZE_COUNT ≤ 11`.  The breakpoint
`fit_width` is the next index (or `0` when the scan does not reach it).  The index moves by
`+1` on scroll-up and by `-1` on scroll-down, clamped to `2..10`, and stays for the other
directions.  Centring is requested exactly when the step crosses the breakpoint from below,
which is exactly on a scroll-up with `index + 1 < SIZE_COUNT`.  When `on_scroll` returns,
the zoom mode is the new index and the scale is the table entry at the new index.
Scenario: from index 4, a scroll-up (with `6 ≤ SIZE_COUNT`) has breakpoint 5, new index 5,
`move_to_center = TRUE` and scale `list_sizes[5] = 1`. -/
theorem on_scroll_static_step (SIZE_COUNT : Nat) (env : Env) (e : GdkEventScroll) (w : World)
    (d0 d1 : ℚ) (hS : SIZE_COUNT ≤ 11)
    (ht : w.list_sizes = d0 :: d1 :: list_sizes_init.drop 2)
    (h2 : 2 ≤ w.gtk.combo_active) (h10 : w.gtk.combo_active ≤ 10)
    (hctl : GDK_CONTROL_MASK &&& e.state ≠ 0) :
    ∃ l, on_scroll_locals SIZE_COUNT e w = some l ∧
      l.index = w.gtk.combo_active ∧
      l.fit_width = (if w.gtk.combo_active + 1 < SIZE_COUNT then w.gtk.combo_active + 1
                     else 0) ∧
      (e.direction = GdkScrollDirection.GDK_SCROLL_UP →
        l.new_index = min (w.gtk.combo_active + 1) 10 ∧
        (l.move_to_center = true ↔ w.gtk.combo_active + 1 < SIZE_COUNT)) ∧
      (e.direction = GdkScrollDirection.GDK_SCROLL_DOWN →
        l.new_index = max (w.gtk.combo_active - 1) 2 ∧ l.move_to_center = false) ∧
      (e.direction ≠ GdkScrollDirection.GDK_SCROLL_UP →
        e.direction ≠ GdkScrollDirection.GDK_SCROLL_DOWN →
        l.new_index = w.gtk.combo_active ∧ l.move_to_center = false) ∧
      (∀ step : Int, (e.direction = GdkScrollDirection.GDK_SCROLL_UP → step = 1) →
        (e.direction = GdkScrollDirection.GDK_SCROLL_DOWN → step = -1) →
        (e.direction ≠ GdkScrollDirection.GDK_SCROLL_UP →
          e.direction ≠ GdkScrollDirection.GDK_SCROLL_DOWN → step = 0) →
        (l.move_to_center = true ↔
          (w.gtk.combo_active < l.fit_width ∧ w.gtk.combo_active + step ≥ l.fit_width))) ∧
      (∀ r, on_scroll SIZE_COUNT env e w = some r →
        r.2.pc.page_zoommode = l.new_index ∧
        list_sizes_at w.list_sizes l.new_index = some r.2.pc.page_scale) ∧
      (w.gtk.combo_active = 4 → e.direction = GdkScrollDirection.GDK_SCROLL_UP →
        6 ≤ SIZE_COUNT →
        l.fit_width = 5 ∧ l.new_index = 5 ∧ l.move_to_center = true ∧
        list_sizes_at w.list_sizes 5 = some 1 ∧
        ∀ r, on_scroll SIZE_COUNT env e w = some r →
          r.2.pc.page_zoommode = 5 ∧ r.2.pc.page_scale = 1) := by
  have hstat := static_table_read w.list_sizes d0 d1 ht
  have hlen : w.list_sizes.length = 11 := by rw [ht]; rfl
  obtain ⟨k, hk⟩ : ∃ k : Nat, w.gtk.combo_active = (k : Int) :=
    ⟨w.gtk.combo_active.toNat, by omega⟩
  have hk2 : 2 ≤ k := by omega
  have hk10 : k < 11 := by omega
  have hprev : list_sizes_at w.list_sizes w.gtk.combo_active
      = some (list_sizes_init.getD k 0) := by
    unfold list_sizes_at
    rw [if_pos (by omega), hk, Int.toNat_ofNat, hstat k hk2]
    have : k < list_sizes_init.length := hk10
    simp [List.getD, List.getElem?_eq_getElem this]
  have hfw : on_scroll_fit_width w.list_sizes (list_sizes_init.getD k 0) 2 (SIZE_COUNT - 2)
      = some (if k + 1 < SIZE_COUNT then ((k + 1 : Nat) : Int) else 0) := by
    rw [fit_width_congr w.list_sizes list_sizes_init _ _ 2 hstat]
    exact fit_width_static ⟨k, hk10⟩ ⟨SIZE_COUNT, by omega⟩ hk2
  have hl : ∃ l, on_scroll_locals SIZE_COUNT e w = some l ∧ l.index = w.gtk.combo_active ∧
      l.fit_width = (if w.gtk.combo_active + 1 < SIZE_COUNT then w.gtk.combo_active + 1
                     else 0) ∧
      l.new_index = CLAMP (w.gtk.combo_active
        + (if e.direction = GdkScrollDirection.GDK_SCROLL_UP then (1 : Int) else 0)
        - (if e.direction = GdkScrollDirection.GDK_SCROLL_DOWN then (1 : Int) else 0) - 2)
        0 8 + 2 ∧
      (l.move_to_center = true ↔ (w.gtk.combo_active < l.fit_width ∧
        w.gtk.combo_active
        + (if e.direction = GdkScrollDirection.GDK_SCROLL_UP then (1 : Int) else 0)
        - (if e.direction = GdkScrollDirection.GDK_SCROLL_DOWN then (1 : Int) else 0)
          ≥ l.fit_width)) := by
    unfold on_scroll_locals
    simp only [hprev, hfw]
    have hn : ¬ w.gtk.combo_active < 2 := by omega
    refine ⟨_, rfl, rfl, ?_, ?_, ?_⟩
    · simp only [hk]
      split <;> rename_i hc
      · rw [if_pos (by exact_mod_cast hc)]; push_cast; rfl
      · rw [if_neg (by intro h; exact hc (by exact_mod_cast h))]
    · simp only [if_neg hn]
    · simp only [if_neg hn, decide_eq_true_eq]
  obtain ⟨l, hl, i1, i2, i3, i4⟩ := hl
  obtain ⟨c1, c2⟩ := clamp_zoom_range (w.gtk.combo_active
        + (if e.direction = GdkScrollDirection.GDK_SCROLL_UP then (1 : Int) else 0)
        - (if e.direction = GdkScrollDirection.GDK_SCROLL_DOWN then (1 : Int) else 0))
  rw [← i3] at c1 c2
  obtain ⟨s, hs⟩ := list_sizes_at_defined w.list_sizes l.new_index hlen (by omega) c2
  obtain ⟨-, k2⟩ := on_scroll_of_locals SIZE_COUNT env e w l s hctl hl hs c1
  have hres : ∀ r, on_scroll SIZE_COUNT env e w = some r →
      r.2.pc.page_zoommode = l.new_index ∧
      list_sizes_at w.list_sizes l.new_index = some r.2.pc.page_scale := by
    intro r hr
    obtain ⟨-, r2, r3, -⟩ := k2 r hr
    exact ⟨r2, by rw [r3]; exact hs⟩
  have h5 : list_sizes_at w.list_sizes 5 = some 1 := by
    unfold list_sizes_at
    rw [if_pos (by omega)]
    have : (5 : Int).toNat = 5 := rfl
    rw [this, hstat 5 (by omega)]
    decide!
  refine ⟨l, hl, i1, i2, ?_, ?_, ?_, ?_, hres, ?_⟩
  · intro hup
    rw [i3, i4, i2]
    simp only [hup, if_true]
    have hd : ¬ GdkScrollDirection.GDK_SCROLL_UP = GdkScrollDirection.GDK_SCROLL_DOWN := by
      decide
    simp only [hd, if_false]
    unfold CLAMP
    constructor
    · split
      · omega
      · split <;> omega
    · split <;> omega
  · intro hdown
    rw [i3]
    have hm : ¬ l.move_to_center = true := by
      rw [i4, i2]
      simp only [hdown, if_true]
      have hd : ¬ GdkScrollDirection.GDK_SCROLL_DOWN = GdkScrollDirection.GDK_SCROLL_UP := by
        decide
      simp only [hd, if_false]
      split <;> omega
    simp only [hdown, if_true]
    have hd : ¬ GdkScrollDirection.GDK_SCROLL_DOWN = GdkScrollDirection.GDK_SCROLL_UP := by
      decide
    simp only [hd, if_false]
    unfold CLAMP
    constructor
    · split
      · omega
      · split <;> omega
    · simpa using hm
  · intro hnu hnd
    have hm : ¬ l.move_to_center = true := by
      rw [i4, i2]
      simp only [hnu, hnd, if_false]
      split <;> omega
    rw [i3]
    simp only [hnu, hnd, if_false]
    unfold CLAMP
    constructor
    · split
      · omega
      · split <;> omega
    · simpa using hm
  · intro step s1 s2 s3
    rw [i4]
    by_cases hup : e.direction = GdkScrollDirection.GDK_SCROLL_UP
    · have hd : ¬ e.direction = GdkScrollDirection.GDK_SCROLL_DOWN := by
        rw [hup]; decide
      rw [s1 hup]
      simp only [hup, if_true]
      have hd2 : ¬ GdkScrollDirection.GDK_SCROLL_UP = GdkScrollDirection.GDK_SCROLL_DOWN := by
        decide
      simp only [hd2, if_false]
      constructor <;> intro h <;> exact ⟨h.1, by omega⟩
    · by_cases hdown : e.direction = GdkScrollDirection.GDK_SCROLL_DOWN
      · rw [s2 hdown]
        simp only [hup, hdown, if_true, if_false]
        constructor <;> intro h <;> exact ⟨h.1, by omega⟩
      · rw [s3 hup hdown]
        simp only [hup, hdown, if_false]
        constructor <;> intro h <;> exact ⟨h.1, by omega⟩
  · intro h4 hup h6
    have f5 : l.fit_width = 5 := by
      rw [i2, h4]
      have : (4 : Int) + 1 < (SIZE_COUNT : Int) := by omega
      rw [if_pos this]; rfl
    have n5 : l.new_index = 5 := by
      rw [i3, h4]
      simp only [hup, if_true]
      decide
    have m5 : l.move_to_center = true := by
      rw [i4, f5, h4]
      simp only [hup, if_true]
      decide
    refine ⟨f5, n5, m5, h5, ?_⟩
    intro r hr
    obtain ⟨r1, r2⟩ := hres r hr
    rw [n5] at r1 r2
    rw [h5] at r2
    exact ⟨r1, (Option.some.inj r2).symm⟩

/-- C5 at the scenario: index 4, scroll-up, `SIZE_COUNT = 11`. -/
theorem on_scroll_static_step_witness :
    (11 ≤ 11 ∧
     (sample_zoomed 4 0.85).list_sizes = (-1 : ℚ) :: (-1 : ℚ) :: list_sizes_init.drop 2 ∧
     2 ≤ (sample_zoomed 4 0.85).gtk.combo_active ∧
     (sample_zoomed 4 0.85).gtk.combo_active ≤ 10 ∧
     GDK_CONTROL_MASK &&& (sample_scroll GdkScrollDirection.GDK_SCROLL_UP).state ≠ 0) ∧
    ∃ l, on_scroll_locals 11 (sample_scroll GdkScrollDirection.GDK_SCROLL_UP)
        (sample_zoomed 4 0.85) = some l ∧
      l.fit_width = 5 ∧ l.new_index = 5 ∧ l.move_to_center = true ∧
      ∀ r, on_scroll 11 (sample_env (some (sample_doc 10 200 300)))
          (sample_scroll GdkScrollDirection.GDK_SCROLL_UP) (sample_zoomed 4 0.85) = some r →
        r.2.pc.page_zoommode = 5 ∧ r.2.pc.page_scale = 1 := by
  refine ⟨⟨by decide, by decide!, by decide, by decide, by decide⟩, ?_⟩
  obtain ⟨l, hl, -, -, -, -, -, -, -, h⟩ :=
    on_scroll_static_step 11 (sample_env (some (sample_doc 10 200 300)))
      (sample_scroll GdkScrollDirection.GDK_SCROLL_UP) (sample_zoomed 4 0.85) (-1) (-1)
      (by decide) (by decide!) (by decide) (by decide) (by decide)
  obtain ⟨a, b, c, -, d⟩ := h (by decide) rfl (by decide)
  exact ⟨l, hl, a, b, c, d⟩

/-- C5 (counterexample): from index 4 (scale 0.85) a scroll-up with the modifier held has
breakpoint 5 and new index 5, and `move_to_center` is `TRUE`, not `FALSE`: the horizontal
adjustment is centred.  And from index 10 a scroll-up leaves the index at 10: it does not
move by `+1`. -/
theorem on_scroll_up_from_four_requests_centring :
    (∃ l, on_scroll_locals 11 (sample_scroll GdkScrollDirection.GDK_SCROLL_UP)
        (sample_zoomed 4 0.85) = some l ∧
      l.index = 4 ∧ l.fit_width = 5 ∧ l.new_index = 5 ∧ l.move_to_center = true ∧
      l.move_to_center ≠ false) ∧
    (∃ r, on_scroll 11 (sample_env (some (sample_doc 10 200 300)))
        (sample_scroll GdkScrollDirection.GDK_SCROLL_UP) (sample_zoomed 4 0.85) = some r ∧
      r.2.trace.count Event.hadj_set_center = 1 ∧
      r.2.trace.count Event.hadj_set_ratio = 0) ∧
    (∃ l, on_scroll_locals 11 (sample_scroll GdkScrollDirection.GDK_SCROLL_UP)
        (sample_zoomed 10 4) = some l ∧
      l.index = 10 ∧ l.new_index = 10 ∧ l.new_index ≠ l.index + 1) := by
  decide!

/-- C10 (amended): for every current zoom index in `0..10`, every scroll direction and the
modifier held, the first part of `on_scroll` returns with an index in `2..10` (the nine
static entries of the eleven-entry table, never the fit slots `0` and `1`), `on_scroll` is
the refresh of a state whose zoom mode is this index and whose scale is the table entry at
this index, and whenever `on_scroll` returns, the zoom mode is this index and the scale is
the table entry at the zoom mode. -/
theorem on_scroll_zoom_mode_static_range (SIZE_COUNT : Nat) (env : Env) (e : GdkEventScroll)
    (w : World) (hS : SIZE_COUNT ≤ 11) (hlen : w.list_sizes.length = 11)
    (h0 : 0 ≤ w.gtk.combo_active) (h1 : w.gtk.combo_active ≤ 10)
    (hctl : GDK_CONTROL_MASK &&& e.state ≠ 0) :
    ∃ l s, on_scroll_locals SIZE_COUNT e w = some l ∧
      2 ≤ l.new_index ∧ l.new_index ≤ 10 ∧
      list_sizes_at w.list_sizes l.new_index = some s ∧
      (∃ w2, w2.pc.page_zoommode = l.new_index ∧ w2.pc.page_scale = s ∧
        w2.gtk.combo_active = l.new_index ∧ w2.list_sizes = w.list_sizes ∧
        on_scroll SIZE_COUNT env e w
          = (previewgui_refresh env w2).map (fun w3 => (true, w3))) ∧
      ∀ r, on_scroll SIZE_COUNT env e w = some r →
        r.1 = true ∧ r.2.pc.page_zoommode = l.new_index ∧ r.2.pc.page_scale = s ∧
        list_sizes_at r.2.list_sizes r.2.pc.page_zoommode = some r.2.pc.page_scale := by
  obtain ⟨prev, hprev⟩ := list_sizes_at_defined w.list_sizes _ hlen h0 h1
  obtain ⟨fw, hfw⟩ := fit_width_defined w.list_sizes prev (SIZE_COUNT - 2) 2 (by omega)
  have hl : ∃ l, on_scroll_locals SIZE_COUNT e w = some l ∧
      ∃ x : Int, l.new_index = CLAMP (x - 2) 0 8 + 2 := by
    unfold on_scroll_locals
    simp only [hprev, hfw]
    exact ⟨_, rfl, _, rfl⟩
  obtain ⟨l, hl, x, hx⟩ := hl
  obtain ⟨c1, c2⟩ := clamp_zoom_range x
  rw [← hx] at c1 c2
  obtain ⟨s, hs⟩ := list_sizes_at_defined w.list_sizes l.new_index hlen (by omega) c2
  obtain ⟨k1, k2⟩ := on_scroll_of_locals SIZE_COUNT env e w l s hctl hl hs c1
  exact ⟨l, s, hl, c1, c2, hs, k1, k2⟩

/-- C10 at index 8 and a scroll-up, `SIZE_COUNT = 11`. -/
theorem on_scroll_zoom_mode_static_range_witness :
    (11 ≤ 11 ∧ (sample_zoomed 8 2).list_sizes.length = 11 ∧
     0 ≤ (sample_zoomed 8 2).gtk.combo_active ∧ (sample_zoomed 8 2).gtk.combo_active ≤ 10 ∧
     GDK_CONTROL_MASK &&& (sample_scroll GdkScrollDirection.GDK_SCROLL_UP).state ≠ 0) ∧
    ∃ l s, on_scroll_locals 11 (sample_scroll GdkScrollDirection.GDK_SCROLL_UP)
        (sample_zoomed 8 2) = some l ∧
      2 ≤ l.new_index ∧ l.new_index ≤ 10 ∧
      list_sizes_at (sample_zoomed 8 2).list_sizes l.new_index = some s ∧
      ∀ r, on_scroll 11 (sample_env (some (sample_doc 10 200 300)))
          (sample_scroll GdkScrollDirection.GDK_SCROLL_UP) (sample_zoomed 8 2) = some r →
        r.1 = true ∧ r.2.pc.page_zoommode = l.new_index ∧ r.2.pc.page_scale = s ∧
        list_sizes_at r.2.list_sizes r.2.pc.page_zoommode = some r.2.pc.page_scale := by
  refine ⟨⟨by decide, by decide, by decide, by decide, by decide⟩, ?_⟩
  obtain ⟨l, s, hl, a, b, c, -, d⟩ :=
    on_scroll_zoom_mode_static_range 11 (sample_env (some (sample_doc 10 200 300)))
      (sample_scroll GdkScrollDirection.GDK_SCROLL_UP) (sample_zoomed 8 2)
      (by decide) (by decide) (by decide) (by decide) (by decide)
  exact ⟨l, s, hl, a, b, c, d⟩

/-- C10 (counterexample): from index 8 (scale 2.0) a scroll-up with the modifier held
returns with zoom mode 9, above 8, and scale `list_sizes[9] = 3`. -/
theorem on_scroll_up_from_eight_selects_nine :
    ∃ r, on_scroll 11 (sample_env (some (sample_doc 10 200 300)))
        (sample_scroll GdkScrollDirection.GDK_SCROLL_UP) (sample_zoomed 8 2) = some r ∧
      r.1 = true ∧ r.2.pc.page_zoommode = 9 ∧ ¬ r.2.pc.page_zoommode ≤ 8 ∧
      r.2.gtk.combo_active = 9 ∧ r.2.pc.page_scale = 3 := by
  decide!

/-! ## Page data -/

/-- C11 (the code at the failing inputs).  On the first of ten pages with the previous-page
button sensitive, `previewgui_set_pagedata` leaves it sensitive although
`page_current = 0`; on the last of ten pages with the next-page button sensitive it leaves
it sensitive although `page_current = page_total - 1`.  The first state arises in a run:
open a five-page document, go to page 3, open the document again and refresh; afterwards
`page_current = 0` and the previous-page button is still sensitive.  The page-number field
and the label are written as expected. -/
theorem set_pagedata_keeps_stale_sensitivity :
    (sample_ten.pc.page_current = 0 ∧ sample_ten.pc.page_total = 10 ∧
      sample_ten.gtk.page_prev_sensitive = true ∧
      (previewgui_set_pagedata sample_ten).gtk.page_prev_sensitive = true ∧
      ¬ ((previewgui_set_pagedata sample_ten).gtk.page_prev_sensitive = true ↔
          sample_ten.pc.page_current > 0) ∧
      (previewgui_set_pagedata sample_ten).gtk.page_input_text = "1" ∧
      (previewgui_set_pagedata sample_ten).gtk.page_label_text = "of 10") ∧
    (sample_last_page.pc.page_current = 9 ∧ sample_last_page.pc.page_total = 10 ∧
      sample_last_page.gtk.page_next_sensitive = true ∧
      (previewgui_set_pagedata sample_last_page).gtk.page_next_sensitive = true ∧
      ¬ ((previewgui_set_pagedata sample_last_page).gtk.page_next_sensitive = true ↔
          sample_last_page.pc.page_current < sample_last_page.pc.page_total - 1) ∧
      (previewgui_set_pagedata sample_last_page).gtk.page_input_text = "10" ∧
      (previewgui_set_pagedata sample_last_page).gtk.page_label_text = "of 10") ∧
    ∃ w1, run (World.init sample_gtk)
        [Op.set_pdffile (sample_env (some (sample_doc 5 200 300))) "/tmp/a.pdf",
         Op.goto_page (sample_env (some (sample_doc 5 200 300))) 3,
         Op.set_pdffile (sample_env (some (sample_doc 5 200 300))) "/tmp/a.pdf",
         Op.refresh (sample_env (some (sample_doc 5 200 300)))] = some w1 ∧
      w1.pc.page_current = 0 ∧ w1.pc.page_total = 5 ∧
      w1.gtk.page_prev_sensitive = true ∧ w1.gtk.page_input_text = "1" := by
  decide!

end Gummi
